import Mathlib

/-!
Shallow embedding of the SeedTogether plant advisor (`src/app.py`).

The program is a single Streamlit script.  Its recommendation core is the
module-level block at lines 221-274: given the plant catalog (a pandas
DataFrame loaded from CSV), the average historical temperature returned by
`get_weather`, and the four user preference selections, it computes a
`perfect` tier, a `similar` tier (via an auxiliary `candidates` frame and
`nsmallest(3, "diff")`), and — when both are empty — a fallback
`sample(5, random_state=1)`.

Modelling conventions:
* a DataFrame of plant rows is a `List Plant` in row (catalog) order;
* Python floats are `PyFloat`: an exact rational or `nan` (the mean of an
  empty series).  Comparisons with `nan` are `false`, `nan` is truthy, and
  arithmetic on `nan` yields `nan`, as in IEEE/Python.  Decimal literals
  such as `1.1` are taken at their exact rational value;
* `nsmallest(3, "diff")` with the default `keep="first"` is a stable
  (mergesort) ascending sort by the `diff` column followed by `take 3`;
  pandas sorts NaN keys last (and would drop them, a dead code path here:
  a candidate row only exists when the queried temperature is numeric, and
  then its `diff` is numeric);
* fallible calls (`requests.get(...).json()`, `dict[...]` indexing) are
  `Except`-valued; `get_weather` has no try/except, so a failing fetch
  propagates out of it.
-/

namespace Pflanzen

/-- A Python float value as it occurs in this program: either an exact
rational number or NaN (produced by `pd.Series([]).mean()`). -/
inductive PyFloat where
  | num (q : ℚ)
  | nan
  deriving Repr, DecidableEq

/-- Python `a <= b` on floats: any comparison involving NaN is `False`. -/
def pyLe : PyFloat → PyFloat → Bool
  | .num a, .num b => decide (a ≤ b)
  | _, _ => false

/-- Python `a < b` on floats: any comparison involving NaN is `False`. -/
def pyLt : PyFloat → PyFloat → Bool
  | .num a, .num b => decide (a < b)
  | _, _ => false

/-- Python `a * b` on floats; NaN is absorbing. -/
def pyMul : PyFloat → PyFloat → PyFloat
  | .num a, .num b => .num (a * b)
  | _, _ => .nan

/-- Python `a - b` on floats; NaN is absorbing. -/
def pySub : PyFloat → PyFloat → PyFloat
  | .num a, .num b => .num (a - b)
  | _, _ => .nan

/-- Python `abs` on floats. -/
def pyAbs : PyFloat → PyFloat
  | .num a => .num |a|
  | .nan => .nan

/-- Python division of a float by a nonzero rational constant. -/
def pyDivConst (a : PyFloat) (b : ℚ) : PyFloat :=
  match a with
  | .num q => .num (q / b)
  | .nan => .nan

/-- Python truthiness of a float: `0.0` is falsy, every other float —
including NaN — is truthy. -/
def pyTruthy : PyFloat → Bool
  | .num q => decide (q ≠ 0)
  | .nan => true

/-- Rounding a rational to the nearest integer, ties to even
(the rounding mode of Python's built-in `round`). -/
def roundHalfEven (q : ℚ) : ℤ :=
  let f := ⌊q⌋
  if q - (f : ℚ) < 1/2 then f
  else if q - (f : ℚ) > 1/2 then f + 1
  else if f % 2 = 0 then f else f + 1

/-- Python `round(x, 1)`: round to one decimal digit, ties to even. -/
def round1 (q : ℚ) : ℚ := (roundHalfEven (q * 10) : ℚ) / 10

/-- Python `round(x, 1)` lifted to floats: `round(nan, 1)` is NaN. -/
def pyRound1 : PyFloat → PyFloat
  | .num q => .num (round1 q)
  | .nan => .nan

/-- The mean `pd.Series(l).mean()`: NaN on an empty series, otherwise the exact
arithmetic mean. -/
def seriesMean (l : List ℚ) : PyFloat :=
  if l.isEmpty then .nan else .num (l.sum / l.length)

/-- One plant row of `pflanzen_erweitert.csv`, restricted to the columns the
filter and explanation logic of `app.py` reads (the remaining columns —
Beschreibung, Blütezeit, Bodenart, Begleitpflanzen, Monatstipps — are only
echoed verbatim into the panel and never branched on). -/
structure Plant where
  name : String
  standort : String
  licht : String
  level : String
  zeitaufwand : String
  min_temp : ℚ
  max_temp : ℚ
  deriving Repr, DecidableEq

/-- The four user selections of the form (lines 196-199 of `app.py`). -/
structure Prefs where
  standort : String
  licht : String
  level : String
  zeit : String
  deriving Repr, DecidableEq

/-- Python `str.lower()`: case folding, character by character (ASCII case
folding; every categorical value in the catalog and in the form is ASCII
apart from already-lowercase umlauts, which `.lower()` leaves unchanged). -/
def pyLower (s : String) : String := String.mk (s.data.map Char.toLower)

/-- Row predicate of the `perfect` frame (lines 222-229):
`min_temp <= temp`, `max_temp >= temp`, the site column lowercased is the
user's site lowercased or `"beides"`, and light / level / time columns
lowercased equal the lowercased selections. -/
def perfectPred (prefs : Prefs) (temp : PyFloat) (p : Plant) : Bool :=
  pyLe (.num p.min_temp) temp &&
  pyLe temp (.num p.max_temp) &&
  (pyLower p.standort == pyLower prefs.standort || pyLower p.standort == "beides") &&
  (pyLower p.licht == pyLower prefs.licht) &&
  (pyLower p.level == pyLower prefs.level) &&
  (pyLower p.zeitaufwand == pyLower prefs.zeit)

/-- The Perfect tier: the catalog filtered by `perfectPred`, in catalog
order (a pandas boolean mask does not reorder rows). -/
def perfect (df : List Plant) (prefs : Prefs) (temp : PyFloat) : List Plant :=
  df.filter (perfectPred prefs temp)

/-- Row predicate of the `candidates` frame (lines 231-235):
`min_temp <= temp * 1.1`, `max_temp >= temp * 0.9`, and the same site
condition as the Perfect tier; light, level and time are not filtered. -/
def candidatePred (prefs : Prefs) (temp : PyFloat) (p : Plant) : Bool :=
  pyLe (.num p.min_temp) (pyMul temp (.num (11/10))) &&
  pyLe (pyMul temp (.num (9/10))) (.num p.max_temp) &&
  (pyLower p.standort == pyLower prefs.standort || pyLower p.standort == "beides")

/-- The `temp_mid` column (line 236): the midpoint of the tolerated range. -/
def temp_mid (p : Plant) : ℚ := (p.min_temp + p.max_temp) / 2

/-- The `candidates` frame with its computed `diff` column
(lines 231-237): each retained row paired with
`diff = abs(temp_mid - temp)`. -/
def candidates (df : List Plant) (prefs : Prefs) (temp : PyFloat) : List (Plant × PyFloat) :=
  (df.filter (candidatePred prefs temp)).map
    (fun p => (p, pyAbs (pySub (.num (temp_mid p)) temp)))

/-- The candidate rows whose name does not occur in the Perfect tier
(the `~candidates["name"].isin(perfect["name"])` mask of line 238). -/
def simPool (df : List Plant) (prefs : Prefs) (temp : PyFloat) : List (Plant × PyFloat) :=
  (candidates df prefs temp).filter
    (fun x => !((perfect df prefs temp).map Plant.name).contains x.1.name)

/-- The key order of `nsmallest(_, "diff")`: ascending numeric order on the
`diff` column, NaN keys last (numpy's stable argsort places NaNs at the
end; pandas additionally drops them — a dead code path here). -/
def diffLe (a b : Plant × PyFloat) : Bool :=
  match a.2, b.2 with
  | .num x, .num y => decide (x ≤ y)
  | .num _, .nan => true
  | .nan, .num _ => false
  | .nan, .nan => true

/-- The order `diffLe` as a decidable relation, the form `List.insertionSort`
expects. -/
def diffLeR (a b : Plant × PyFloat) : Prop := diffLe a b = true

instance : DecidableRel diffLeR := fun a b => inferInstanceAs (Decidable (_ = true))

instance : IsTotal (Plant × PyFloat) diffLeR where
  total a b := by
    unfold diffLeR diffLe
    rcases a.2 with q | _ <;> rcases b.2 with r | _ <;> simp [le_total]

instance : IsTrans (Plant × PyFloat) diffLeR where
  trans a b c := by
    unfold diffLeR diffLe
    rcases a.2 with q | _ <;> rcases b.2 with r | _ <;> rcases c.2 with s | _ <;>
      simp <;> exact le_trans

/-- The Similar tier (line 238): `nsmallest(3, "diff")` with the default
`keep="first"`, i.e. a stable ascending sort by `diff` followed by taking
the first three rows.  (pandas performs a stable mergesort of the
qualifying rows; a stable sort under a total preorder is unique, and
insertion sort is used here.) -/
def similar (df : List Plant) (prefs : Prefs) (temp : PyFloat) : List (Plant × PyFloat) :=
  ((simPool df prefs temp).insertionSort diffLeR).take 3

/-- One step of a linear congruential generator, standing in for numpy's
Mersenne-Twister stream (see `pandasSample`). -/
def lcgStep (s : Nat) : Nat := (1103515245 * s + 12345) % 4294967296

/-- Draw `n` rows without replacement, consuming one generator value per
draw. -/
def sampleAux : Nat → Nat → List α → List α
  | _, 0, _ => []
  | s, n + 1, l =>
    if h : 0 < l.length then
      l.get ⟨s % l.length, Nat.mod_lt _ h⟩ ::
        sampleAux (lcgStep s) n (l.eraseIdx (s % l.length))
    else []

/-- Modelled from the spec: `DataFrame.sample(n, random_state=...)`
(pandas/numpy library code, not part of this repository's sources) — a
pseudo-random sample of `n` distinct rows, deterministic for a fixed
`random_state`, raising `ValueError` (here `none`) when `n` exceeds the
population because replacement is off.  The exact numpy Mersenne-Twister
index sequence is replaced by an LCG-driven draw; no claim depends on which
indices are chosen.  `entropy` models the ambient OS randomness numpy would
seed from when `random_state` is absent. -/
def pandasSample (randomState : Option Nat) (entropy : Nat) (n : Nat)
    (l : List α) : Option (List α) :=
  if n ≤ l.length then some (sampleAux (randomState.getD entropy) n l) else none

instance {ε α : Type} [DecidableEq ε] [DecidableEq α] : DecidableEq (Except ε α) :=
  fun a b =>
    match a, b with
    | .error e, .error f =>
      if h : e = f then isTrue (by rw [h]) else isFalse (by intro hh; cases hh; exact h rfl)
    | .ok x, .ok y =>
      if h : x = y then isTrue (by rw [h]) else isFalse (by intro hh; cases hh; exact h rfl)
    | .error _, .ok _ => isFalse (by intro hh; cases hh)
    | .ok _, .error _ => isFalse (by intro hh; cases hh)

/-- The three tiers produced by one run of the filter block.  `fallback` is
`Except`-valued: `sample(5, random_state=1)` raises when the catalog has
fewer than five rows. -/
structure Tiers where
  perfect : List Plant
  similar : List (Plant × PyFloat)
  fallback : Except String (Option (List Plant))
  deriving Repr, DecidableEq

/-- The whole filter block (lines 221-274): both the Perfect tier and the
Similar tier are computed unconditionally; the fallback sample
`pflanzen_df.sample(5, random_state=1)` is drawn only when both are empty.
`entropy` is the ambient randomness a seedless sampler would use; it is
ignored because `random_state=1` is passed. -/
def classify (df : List Plant) (prefs : Prefs) (temp : PyFloat) (entropy : Nat) : Tiers :=
  let perf := perfect df prefs temp
  let sim := similar df prefs temp
  { perfect := perf
    similar := sim
    fallback :=
      if perf.isEmpty && sim.isEmpty then
        match pandasSample (some 1) entropy 5 df with
        | some s => Except.ok (some s)
        | none => Except.error "ValueError: Cannot take a larger sample than population when replace is False"
      else Except.ok none }

/-- The `"daily"` object of the archive response; each array is absent when
the API omits it (`hist.get("daily", {}).get(..., [])` defaults to `[]`). -/
structure HistDaily where
  temperature_2m_mean : Option (List ℚ)
  sunshine_duration : Option (List ℚ)
  deriving Repr, DecidableEq

/-- Parsed JSON of the archive request; `daily` is absent when the key is
missing. -/
structure HistResp where
  daily : Option HistDaily
  deriving Repr, DecidableEq

/-- The fields inside the forecast response's `"current"` object, each
individually absent when the API omits it (read with `.get`). -/
structure CurrentFields where
  temperature_2m : Option ℚ
  relative_humidity_2m : Option ℚ
  uv_index : Option ℚ
  deriving Repr, DecidableEq

/-- Parsed JSON of the forecast request.  The code indexes
`aktuell["current"]` directly, so an absent `current` raises `KeyError`. -/
structure CurrentResp where
  current : Option CurrentFields
  deriving Repr, DecidableEq

/-- The `"current"` object of the air-quality response. -/
structure AirFields where
  european_aqi : Option ℚ
  deriving Repr, DecidableEq

/-- Parsed JSON of the air-quality request, read with
`air.get("current", {}).get("european_aqi")`. -/
structure AirResp where
  current : Option AirFields
  deriving Repr, DecidableEq

/-- An exception escaping `get_weather` (which has no try/except):
a `requests` failure (timeout, connection or HTTP error) from any of the
three fetches, or the `KeyError` from `aktuell["current"]`. -/
inductive PyError where
  | requestError
  | keyError
  deriving Repr, DecidableEq

/-- The six-field tuple returned by `get_weather` (lines 82-89).  `temp` and
`sun` are `None` exactly when the computed value is falsy (so a mean of
`0.0` becomes `None`, while the NaN of an empty series is kept). -/
structure Weather where
  temp : Option PyFloat
  sun : Option PyFloat
  temp_now : Option ℚ
  hum : Option ℚ
  uv : Option ℚ
  aqi : Option ℚ
  deriving Repr, DecidableEq

/-- The function `get_weather` (lines 57-89) as a function of the three fetch results.
Each `requests.get(...).json()` either yields its parsed payload or raises;
nothing is caught, so the first failing fetch aborts the whole call.  On
success: `temp = round(mean, 1) if mean else None`,
`sun = round(mean/3600, 1) if mean/3600 else None`, the three current
fields are read from `aktuell["current"]` with `.get`, and the AQI is read
with a fully guarded `.get` chain. -/
def get_weather (hist : Except Unit HistResp) (aktuell : Except Unit CurrentResp)
    (air : Except Unit AirResp) : Except PyError Weather := do
  let h ← hist.mapError fun _ => PyError.requestError
  let a ← aktuell.mapError fun _ => PyError.requestError
  let q ← air.mapError fun _ => PyError.requestError
  let temp := seriesMean ((h.daily.bind HistDaily.temperature_2m_mean).getD [])
  let sun := pyDivConst (seriesMean ((h.daily.bind HistDaily.sunshine_duration).getD [])) 3600
  let cur ← match a.current with
    | some c => Except.ok c
    | none => Except.error PyError.keyError
  Except.ok
    { temp := if pyTruthy temp then some (pyRound1 temp) else none
      sun := if pyTruthy sun then some (pyRound1 sun) else none
      temp_now := cur.temperature_2m
      hum := cur.relative_humidity_2m
      uv := cur.uv_index
      aqi := q.current.bind AirFields.european_aqi }

/-- What one page run shows, beyond the per-plant panels: whether the
city-not-found warning appeared, whether the found-location banner and the
metric cards appeared, which tiers were computed (`none` when the filter
block at line 221 was skipped), and whether an uncaught exception ended the
script early. -/
structure PageResult where
  locationWarning : Bool
  successShown : Bool
  tiers : Option Tiers
  crashed : Option PyError
  deriving Repr, DecidableEq

/-- The module-level control flow around the filter (lines 201-274):
`coords` stays `None` unless a nonempty city was entered and the resolver
found it; on resolver failure only the warning is shown; `get_weather` runs
inside the `if coords:` branch and an exception from it ends the script;
the filter block runs iff `coords and temp is not None`. -/
def runPage (stadt : String) (resolved : Option Unit) (hist : Except Unit HistResp)
    (aktuell : Except Unit CurrentResp) (air : Except Unit AirResp)
    (df : List Plant) (prefs : Prefs) (entropy : Nat) : PageResult :=
  let coords := if stadt != "" then resolved else none
  match coords with
  | none =>
    { locationWarning := stadt != "", successShown := false, tiers := none, crashed := none }
  | some _ =>
    match get_weather hist aktuell air with
    | .error e =>
      { locationWarning := false, successShown := false, tiers := none, crashed := some e }
    | .ok w =>
      { locationWarning := false
        successShown := true
        tiers := match w.temp with
          | some t => some (classify df prefs t entropy)
          | none => none
        crashed := none }

/-- The Bewertung tag of `zeige_pflanze` (lines 126-132): `Sehr ähnlich`,
`Okay` or `Abweichend`. -/
inductive Quality where
  | sehrAehnlich
  | okay
  | abweichend
  deriving Repr, DecidableEq

/-- The deviation text in the panel title of `zeige_pflanze`
(lines 133-143): below range shows `abs(round(diff_val, 1))` degrees
`unter Idealtemperatur`, above range shows `round(diff_val, 1)` degrees
`über`, in range shows `Im Idealbereich`; without a climate temperature the
raw `diff_val` is echoed. -/
inductive DirText where
  | unter (shown : PyFloat) (lo hi : ℚ)
  | ueber (shown : PyFloat) (lo hi : ℚ)
  | ideal (lo hi : ℚ)
  | abweichung (d : PyFloat)
  deriving Repr, DecidableEq

/-- The observable decisions of one `zeige_pflanze` panel. -/
structure PlantView where
  name : String
  bewertung : Option Quality
  dirText : Option DirText
  deriving Repr, DecidableEq

/-- The panel builder `zeige_pflanze` (lines 121-147), restricted to its branching outputs:
with `diff_val=None` neither a quality tag nor a deviation text is built;
with a known `diff_val` the tag comes from the thresholds 2 and 4 and the
deviation text from comparing `klima_temp` with the tolerated range. -/
def zeige_pflanze (row : Plant) (diff_val : Option PyFloat)
    (klima_temp : Option PyFloat) : PlantView :=
  match diff_val with
  | none => { name := row.name, bewertung := none, dirText := none }
  | some d =>
    let b := if pyLe d (.num 2) then Quality.sehrAehnlich
             else if pyLe d (.num 4) then Quality.okay
             else Quality.abweichend
    let dt := match klima_temp with
      | none => DirText.abweichung d
      | some kt =>
        let delta := pyRound1 d
        if pyLt kt (.num row.min_temp) then DirText.unter (pyAbs delta) row.min_temp row.max_temp
        else if pyLt (.num row.max_temp) kt then DirText.ueber delta row.min_temp row.max_temp
        else DirText.ideal row.min_temp row.max_temp
    { name := row.name, bewertung := some b, dirText := some dt }

/-- The panels rendered by the filter block, in order: Perfect rows with
`zeige_pflanze(row, klima_temp=temp)` — no `diff_val` (line 253) —, Similar
rows with `zeige_pflanze(row, round(row["diff"], 1), klima_temp=temp)`
(line 263), and fallback rows again without `diff_val` (line 274). -/
def renderTiers (t : Tiers) (temp : PyFloat) : List PlantView :=
  t.perfect.map (fun row => zeige_pflanze row none (some temp)) ++
  t.similar.map (fun x => zeige_pflanze x.1 (some (pyRound1 x.2)) (some temp)) ++
  (match t.fallback with
   | Except.ok (some s) => s.map (fun row => zeige_pflanze row none (some temp))
   | _ => [])

/-! Concrete fixtures: the single plant and the matching preferences of the
spec's scenario section (§8), a garden-only variant, and a five-plant
garden-only catalog. -/

/-- The scenario plant of spec §8: Balkon, sonnig, Anfänger, Wenig,
tolerated range 10-25 °C. -/
def cPlant : Plant :=
  { name := "Minze", standort := "Balkon", licht := "sonnig", level := "Anfänger",
    zeitaufwand := "Wenig", min_temp := 10, max_temp := 25 }

/-- The matching preferences of spec §8. -/
def cPrefs : Prefs :=
  { standort := "Balkon", licht := "sonnig", level := "Anfänger", zeit := "Wenig" }

/-- A plant that accepts only a garden site; with `cPrefs` (Balkon) it
matches neither tier. -/
def gPlant (n : String) : Plant :=
  { name := n, standort := "Garten", licht := "sonnig", level := "Anfänger",
    zeitaufwand := "Wenig", min_temp := 10, max_temp := 25 }

/-- A five-plant garden-only catalog: with `cPrefs` both the Perfect and the
Similar tier are empty at any temperature. -/
def gCatalog : List Plant :=
  [gPlant "Efeu", gPlant "Dahlie", gPlant "Rose", gPlant "Lavendel", gPlant "Salbei"]

/-! Helper lemmas. -/

theorem sampleAux_length {α : Type} (s n : Nat) (l : List α) (h : n ≤ l.length) :
    (sampleAux s n l).length = n := by
  induction n generalizing s l with
  | zero => rfl
  | succ k ih =>
    have hpos : 0 < l.length := lt_of_lt_of_le (Nat.succ_pos k) h
    rw [sampleAux]
    simp only [hpos, dif_pos, List.length_cons]
    rw [ih]
    rw [List.length_eraseIdx_of_lt (Nat.mod_lt _ hpos)]
    omega

theorem sampleAux_mem {α : Type} (s n : Nat) (l : List α) :
    ∀ x ∈ sampleAux s n l, x ∈ l := by
  induction n generalizing s l with
  | zero => intro x hx; cases hx
  | succ k ih =>
    intro x hx
    rw [sampleAux] at hx
    by_cases hpos : 0 < l.length
    · simp only [hpos, dif_pos, List.mem_cons] at hx
      rcases hx with h | h
      · rw [h]; exact l.get_mem _ _
      · exact (l.eraseIdx_sublist _).mem (ih _ _ x h)
    · simp only [hpos, dif_neg, not_false_iff] at hx
      cases hx

/-- The Bool row predicate of the Perfect tier agrees with its propositional
reading. -/
theorem perfectPred_eq_decide (prefs : Prefs) (t : ℚ) (p : Plant) :
    perfectPred prefs (.num t) p =
      decide (p.min_temp ≤ t ∧ t ≤ p.max_temp ∧
        (pyLower p.standort = pyLower prefs.standort ∨ pyLower p.standort = "beides") ∧
        pyLower p.licht = pyLower prefs.licht ∧
        pyLower p.level = pyLower prefs.level ∧
        pyLower p.zeitaufwand = pyLower prefs.zeit) := by
  rw [Bool.eq_iff_iff]
  simp [perfectPred, pyLe, and_assoc]

/-- The Bool row predicate of the candidates frame agrees with its
propositional reading. -/
theorem candidatePred_eq_decide (prefs : Prefs) (t : ℚ) (p : Plant) :
    candidatePred prefs (.num t) p =
      decide (p.min_temp ≤ t * (11/10) ∧ t * (9/10) ≤ p.max_temp ∧
        (pyLower p.standort = pyLower prefs.standort ∨ pyLower p.standort = "beides")) := by
  rw [Bool.eq_iff_iff]
  simp [candidatePred, pyLe, pyMul, and_assoc]

/-! Theorems for the claims. -/

/-- C1: for every catalog, numeric average temperature and preferences, the
Perfect tier is exactly the catalog filtered by
`min_temp <= avg_temp <= max_temp`, site equal to the user's site or
`beides`, and light, level and time equal to the user's choices, all
categorical comparisons after lowercasing both sides; and it is a sublist
of the catalog (catalog order, no re-sort). -/
theorem c1_perfect_tier (df : List Plant) (prefs : Prefs) (t : ℚ) :
    perfect df prefs (.num t) =
      df.filter (fun p => decide (p.min_temp ≤ t ∧ t ≤ p.max_temp ∧
        (pyLower p.standort = pyLower prefs.standort ∨ pyLower p.standort = "beides") ∧
        pyLower p.licht = pyLower prefs.licht ∧
        pyLower p.level = pyLower prefs.level ∧
        pyLower p.zeitaufwand = pyLower prefs.zeit)) ∧
    (perfect df prefs (.num t)).Sublist df := by
  constructor
  · unfold perfect
    exact List.filter_congr fun p _ => perfectPred_eq_decide prefs t p
  · exact List.filter_sublist df

/-- C2: for every catalog, numeric average temperature and preferences, the
Similar-tier candidate set holds exactly the plants with
`min_temp <= avg*1.1` and `max_temp >= avg*0.9` whose site matches (light,
experience and time are not filtered), each paired with
`diff = |(min_temp+max_temp)/2 - avg|`; and for every entropy — in
particular whether or not the Perfect tier is empty — the Similar tier the
filter outputs is computed from this candidate set. -/
theorem c2_candidate_set (df : List Plant) (prefs : Prefs) (t : ℚ) :
    (∀ (p : Plant) (d : PyFloat), (p, d) ∈ candidates df prefs (.num t) ↔
      p ∈ df ∧ p.min_temp ≤ t * (11/10) ∧ t * (9/10) ≤ p.max_temp ∧
      (pyLower p.standort = pyLower prefs.standort ∨ pyLower p.standort = "beides") ∧
      d = .num |(p.min_temp + p.max_temp) / 2 - t|) ∧
    ∀ entropy : Nat, (classify df prefs (.num t) entropy).similar =
      (((candidates df prefs (.num t)).filter
          (fun x => !((perfect df prefs (.num t)).map Plant.name).contains x.1.name)).insertionSort
        diffLeR).take 3 := by
  constructor
  · intro p d
    simp only [candidates, List.mem_map, List.mem_filter, candidatePred_eq_decide,
      decide_eq_true_eq, Prod.mk.injEq, pySub, pyAbs, temp_mid]
    constructor
    · rintro ⟨a, ⟨ha, h1, h2, h3⟩, rfl, rfl⟩
      exact ⟨ha, h1, h2, h3, rfl⟩
    · rintro ⟨ha, h1, h2, h3, rfl⟩
      exact ⟨p, ⟨ha, h1, h2, h3⟩, rfl, rfl⟩
  · intro e
    rfl

/-- Rows of the candidate pool whose `diff` keys are equal are related by
`diffLeR` (the key order is reflexive on equal keys). -/
theorem pairwise_diffLeR_of_filter_eq (l : List (Plant × PyFloat)) (q : PyFloat) :
    (l.filter (fun x => x.2 == q)).Pairwise diffLeR := by
  apply List.pairwise_of_forall_mem_list
  intro a ha b hb
  have ha2 : a.2 = q := by simpa using (List.mem_filter.mp ha).2
  have hb2 : b.2 = q := by simpa using (List.mem_filter.mp hb).2
  unfold diffLeR diffLe
  rw [ha2, hb2]
  cases q <;> simp

/-- C3: for every catalog, numeric average temperature and preferences, the
Similar tier (1) never holds a plant whose name occurs in the Perfect tier,
(2) has at most three entries, (3) has numeric `diff` values, (4) is sorted
ascending by `diff`, (5) holds three smallest-`diff` rows: every unselected
candidate row has a `diff` at least as large as every selected one, and
(6) breaks ties by catalog order: among rows of any fixed `diff`, the
selected ones are the first such rows of the candidate pool, in pool
(= catalog) order. -/
theorem c3_similar_tier (df : List Plant) (prefs : Prefs) (t : ℚ) :
    (∀ x ∈ similar df prefs (.num t),
        x.1.name ∉ (perfect df prefs (.num t)).map Plant.name) ∧
    (similar df prefs (.num t)).length ≤ 3 ∧
    (∀ x ∈ similar df prefs (.num t), ∃ d : ℚ, x.2 = .num d) ∧
    (similar df prefs (.num t)).Pairwise diffLeR ∧
    (∀ x ∈ simPool df prefs (.num t),
        x ∈ similar df prefs (.num t) ∨
          ∀ y ∈ similar df prefs (.num t), diffLeR y x) ∧
    (∀ q : PyFloat,
        (similar df prefs (.num t)).filter (fun x => x.2 == q) =
          ((simPool df prefs (.num t)).filter (fun x => x.2 == q)).take
            (((similar df prefs (.num t)).filter (fun x => x.2 == q)).length)) := by
  have hperm : List.Perm ((simPool df prefs (.num t)).insertionSort diffLeR)
      (simPool df prefs (.num t)) :=
    List.perm_insertionSort _ _
  have hsorted : ((simPool df prefs (.num t)).insertionSort diffLeR).Pairwise diffLeR :=
    List.sorted_insertionSort _ _
  have hmem_pool : ∀ x ∈ similar df prefs (.num t), x ∈ simPool df prefs (.num t) := by
    intro x hx
    exact hperm.subset (List.take_subset _ _ hx)
  refine ⟨?_, ?_, ?_, ?_, ?_, ?_⟩
  · intro x hx hmem
    have hx' := hmem_pool x hx
    have h2 := (List.mem_filter.mp hx').2
    simp only [Bool.not_eq_true'] at h2
    have h3 : ((perfect df prefs (.num t)).map Plant.name).contains x.1.name = true :=
      List.elem_iff.mpr hmem
    rw [h2] at h3
    cases h3
  · exact List.length_take_le 3 _
  · intro x hx
    have hx' := hmem_pool x hx
    have hc : x ∈ candidates df prefs (.num t) := (List.mem_filter.mp hx').1
    rcases List.mem_map.mp hc with ⟨p, _, rfl⟩
    exact ⟨|temp_mid p - t|, rfl⟩
  · exact List.Pairwise.sublist (List.take_sublist 3 _) hsorted
  · intro x hx
    have hxs : x ∈ (simPool df prefs (.num t)).insertionSort diffLeR := hperm.mem_iff.mpr hx
    rw [← List.take_append_drop 3 ((simPool df prefs (.num t)).insertionSort diffLeR)] at hxs
    rcases List.mem_append.mp hxs with h | h
    · exact Or.inl h
    · refine Or.inr fun y hy => ?_
      have hp := hsorted
      rw [← List.take_append_drop 3 ((simPool df prefs (.num t)).insertionSort diffLeR)] at hp
      exact (List.pairwise_append.mp hp).2.2 y hy x h
  · intro q
    have hpair := pairwise_diffLeR_of_filter_eq (simPool df prefs (.num t)) q
    have hsub : List.Sublist ((simPool df prefs (.num t)).filter (fun x => x.2 == q))
        ((simPool df prefs (.num t)).insertionSort diffLeR) :=
      List.sublist_insertionSort hpair (List.filter_sublist _)
    have hsub2 : List.Sublist ((simPool df prefs (.num t)).filter (fun x => x.2 == q))
        (((simPool df prefs (.num t)).insertionSort diffLeR).filter (fun x => x.2 == q)) := by
      have h1 := List.Sublist.filter (fun x => x.2 == q) hsub
      rwa [List.filter_eq_self.mpr (fun x hx => (List.mem_filter.mp hx).2)] at h1
    have heq : ((simPool df prefs (.num t)).insertionSort diffLeR).filter (fun x => x.2 == q) =
        (simPool df prefs (.num t)).filter (fun x => x.2 == q) :=
      (hsub2.eq_of_length ((hperm.filter _).length_eq).symm).symm
    have hstep : (similar df prefs (.num t)).filter (fun x => x.2 == q) ++
        (((simPool df prefs (.num t)).insertionSort diffLeR).drop 3).filter (fun x => x.2 == q) =
        (simPool df prefs (.num t)).filter (fun x => x.2 == q) := by
      rw [show similar df prefs (.num t) =
        ((simPool df prefs (.num t)).insertionSort diffLeR).take 3 from rfl]
      rw [← List.filter_append, List.take_append_drop, heq]
    calc (similar df prefs (.num t)).filter (fun x => x.2 == q)
        = ((similar df prefs (.num t)).filter (fun x => x.2 == q) ++
            (((simPool df prefs (.num t)).insertionSort diffLeR).drop 3).filter
              (fun x => x.2 == q)).take
            (((similar df prefs (.num t)).filter (fun x => x.2 == q)).length) :=
          (List.take_left' rfl).symm
      _ = ((simPool df prefs (.num t)).filter (fun x => x.2 == q)).take
            (((similar df prefs (.num t)).filter (fun x => x.2 == q)).length) := by
          rw [hstep]

/-- C9: the filter block is a pure function of catalog, temperature and
preferences: the ambient entropy a seedless sampler would consume is
ignored (the code passes the fixed seed `random_state=1`), so two runs on
identical inputs produce identical Perfect, Similar and fallback tiers. -/
theorem c9_classify_deterministic (df : List Plant) (prefs : Prefs) (temp : PyFloat)
    (e₁ e₂ : Nat) : classify df prefs temp e₁ = classify df prefs temp e₂ := by
  simp [classify, pandasSample]

/-- C4 counterexample: a one-plant catalog whose only plant matches neither
tier (garden plant, balcony preferences).  Both tiers are empty, the
fallback triggers, but instead of a sample of catalog size (1) the code's
`sample(5, random_state=1)` on one row raises ValueError and no fallback
list is produced. -/
theorem c4_counterexample :
    perfect [gPlant "Efeu"] cPrefs (.num 18) = [] ∧
    similar [gPlant "Efeu"] cPrefs (.num 18) = [] ∧
    (classify [gPlant "Efeu"] cPrefs (.num 18) 0).fallback =
      Except.error "ValueError: Cannot take a larger sample than population when replace is False" := by
  have hsite : (pyLower (gPlant "Efeu").standort == pyLower cPrefs.standort ||
      pyLower (gPlant "Efeu").standort == "beides") = false := by decide
  have hc : candidatePred cPrefs (.num 18) (gPlant "Efeu") = false := by
    simp [candidatePred, hsite]
  have h1 : perfect [gPlant "Efeu"] cPrefs (.num 18) = [] := by decide
  have h2 : similar [gPlant "Efeu"] cPrefs (.num 18) = [] := by
    simp [similar, simPool, candidates, hc]
  refine ⟨h1, h2, ?_⟩
  simp [classify, h1, h2, pandasSample]

/-- C4 corrected: the fallback tier is populated iff both other tiers are
empty AND the catalog has at least five rows; then it is a pseudo-random
five-row (always five, never catalog-sized) selection of catalog rows,
identical across runs because the seed is fixed.  On a smaller catalog with
both tiers empty, `sample(5)` raises ValueError instead of shrinking the
sample. -/
theorem c4_fallback_behavior (df : List Plant) (prefs : Prefs) (temp : PyFloat) (e e' : Nat) :
    classify df prefs temp e = classify df prefs temp e' ∧
    (¬ (perfect df prefs temp = [] ∧ similar df prefs temp = []) →
      (classify df prefs temp e).fallback = Except.ok none) ∧
    (perfect df prefs temp = [] → similar df prefs temp = [] → 5 ≤ df.length →
      ∃ s, (classify df prefs temp e).fallback = Except.ok (some s) ∧
        s.length = 5 ∧ ∀ x ∈ s, x ∈ df) ∧
    (perfect df prefs temp = [] → similar df prefs temp = [] → df.length < 5 →
      (classify df prefs temp e).fallback =
        Except.error "ValueError: Cannot take a larger sample than population when replace is False") := by
  refine ⟨by simp [classify, pandasSample], ?_, ?_, ?_⟩
  · intro h
    have hcond : ((perfect df prefs temp).isEmpty && (similar df prefs temp).isEmpty) = false := by
      rcases not_and_or.mp h with h' | h' <;>
        simp [List.isEmpty_iff, h']
    simp [classify, hcond]
  · intro h1 h2 h5
    refine ⟨sampleAux 1 5 df, ?_, sampleAux_length 1 5 df h5,
      fun x hx => sampleAux_mem 1 5 df x hx⟩
    simp [classify, h1, h2, pandasSample, h5]
  · intro h1 h2 h5
    simp [classify, h1, h2, pandasSample, Nat.not_le.mpr h5]

/-- C4 witness: at the five-plant garden-only catalog with balcony
preferences both tiers are empty and the amended fallback behavior fires:
a five-row sample of catalog rows. -/
theorem c4_fallback_behavior_witness :
    ∃ s, (classify gCatalog cPrefs (.num 18) 0).fallback = Except.ok (some s) ∧
      s.length = 5 ∧ ∀ x ∈ s, x ∈ gCatalog := by
  have hsite : ∀ n, (pyLower (gPlant n).standort == pyLower cPrefs.standort ||
      pyLower (gPlant n).standort == "beides") = false := fun n => by
    show (pyLower "Garten" == pyLower cPrefs.standort || pyLower "Garten" == "beides") = false
    decide
  have hc : ∀ n, candidatePred cPrefs (.num 18) (gPlant n) = false := fun n => by
    simp [candidatePred, hsite n]
  have h1 : perfect gCatalog cPrefs (.num 18) = [] := by decide
  have h2 : similar gCatalog cPrefs (.num 18) = [] := by
    simp [similar, simPool, candidates, gCatalog, hc]
  exact (c4_fallback_behavior gCatalog cPrefs (.num 18) 0 0).2.2.1 h1 h2 (by decide)

/-- C5: when the weather summary's average temperature is None the filter
block is skipped (no tiers are computed), and when the resolver returns
nothing the filter never runs, nothing crashes, no found-location banner is
shown, and the city-not-found warning appears exactly when a city was
entered. -/
theorem c5_filter_guards (stadt : String) (resolved : Option Unit)
    (hist : Except Unit HistResp) (aktuell : Except Unit CurrentResp)
    (air : Except Unit AirResp) (df : List Plant) (prefs : Prefs) (e : Nat) :
    (∀ w : Weather, get_weather hist aktuell air = Except.ok w → w.temp = none →
      (runPage stadt resolved hist aktuell air df prefs e).tiers = none) ∧
    (resolved = none →
      (runPage stadt resolved hist aktuell air df prefs e).tiers = none ∧
      (runPage stadt resolved hist aktuell air df prefs e).successShown = false ∧
      (runPage stadt resolved hist aktuell air df prefs e).crashed = none ∧
      (runPage stadt resolved hist aktuell air df prefs e).locationWarning = (stadt != "")) := by
  constructor
  · intro w hw htemp
    unfold runPage
    cases hco : (if stadt != "" then resolved else none) with
    | none => simp
    | some u => simp [hw, htemp]
  · rintro rfl
    unfold runPage
    cases h : (stadt != "") <;> simp [h]

/-- C5 witness: city "Berlin", failed resolver: only the warning; resolved
city with a zero-mean temperature series: no tiers. -/
theorem c5_filter_guards_witness :
    (runPage "Berlin" none (Except.ok ⟨some ⟨some [0], some [0]⟩⟩)
      (Except.ok ⟨some ⟨none, none, none⟩⟩) (Except.ok ⟨none⟩) [] cPrefs 0).tiers = none ∧
    (runPage "Berlin" none (Except.ok ⟨some ⟨some [0], some [0]⟩⟩)
      (Except.ok ⟨some ⟨none, none, none⟩⟩) (Except.ok ⟨none⟩) [] cPrefs 0).locationWarning =
        ("Berlin" != "") ∧
    (runPage "Berlin" (some ()) (Except.ok ⟨some ⟨some [0], some [0]⟩⟩)
      (Except.ok ⟨some ⟨none, none, none⟩⟩) (Except.ok ⟨none⟩) [] cPrefs 0).tiers = none := by
  have hz : seriesMean [(0 : ℚ)] = PyFloat.num 0 := by norm_num [seriesMean]
  have hg : get_weather (Except.ok ⟨some ⟨some [0], some [0]⟩⟩)
      (Except.ok ⟨some ⟨none, none, none⟩⟩) (Except.ok ⟨none⟩) =
      Except.ok ⟨none, none, none, none, none, none⟩ := by
    have hred : get_weather (Except.ok ⟨some ⟨some [0], some [0]⟩⟩)
        (Except.ok ⟨some ⟨none, none, none⟩⟩) (Except.ok ⟨none⟩) =
        Except.ok
          { temp := if pyTruthy (seriesMean [0]) then some (pyRound1 (seriesMean [0])) else none
            sun := if pyTruthy (pyDivConst (seriesMean [0]) 3600) then
                     some (pyRound1 (pyDivConst (seriesMean [0]) 3600)) else none
            temp_now := none, hum := none, uv := none, aqi := none } := rfl
    rw [hz] at hred
    simpa [pyTruthy, pyDivConst] using hred
  have H1 := c5_filter_guards "Berlin" none (Except.ok ⟨some ⟨some [0], some [0]⟩⟩)
    (Except.ok ⟨some ⟨none, none, none⟩⟩) (Except.ok ⟨none⟩) [] cPrefs 0
  have H2 := c5_filter_guards "Berlin" (some ()) (Except.ok ⟨some ⟨some [0], some [0]⟩⟩)
    (Except.ok ⟨some ⟨none, none, none⟩⟩) (Except.ok ⟨none⟩) [] cPrefs 0
  exact ⟨(H1.2 rfl).1, (H1.2 rfl).2.2.2, H2.1 _ hg rfl⟩

/-- C10: when the computed multi-year temperature mean is exactly 0.0 — a
falsy float — `get_weather` returns None for the average temperature even
though data was available, so the page computes no recommendations; the
sunshine average goes through the same truthiness test. -/
theorem c10_zero_mean_truthiness (temps suns : List ℚ) (cur : CurrentFields) (air : AirResp)
    (h1 : seriesMean temps = PyFloat.num 0)
    (h2 : seriesMean suns = PyFloat.num 0) :
    get_weather (Except.ok ⟨some ⟨some temps, some suns⟩⟩) (Except.ok ⟨some cur⟩)
        (Except.ok air) =
      Except.ok { temp := none, sun := none, temp_now := cur.temperature_2m,
                  hum := cur.relative_humidity_2m, uv := cur.uv_index,
                  aqi := air.current.bind AirFields.european_aqi } ∧
    ∀ (stadt : String) (df : List Plant) (prefs : Prefs) (e : Nat),
      (runPage stadt (some ()) (Except.ok ⟨some ⟨some temps, some suns⟩⟩)
        (Except.ok ⟨some cur⟩) (Except.ok air) df prefs e).tiers = none := by
  have hg : get_weather (Except.ok ⟨some ⟨some temps, some suns⟩⟩) (Except.ok ⟨some cur⟩)
      (Except.ok air) =
      Except.ok { temp := none, sun := none, temp_now := cur.temperature_2m,
                  hum := cur.relative_humidity_2m, uv := cur.uv_index,
                  aqi := air.current.bind AirFields.european_aqi } := by
    have hred : get_weather (Except.ok ⟨some ⟨some temps, some suns⟩⟩) (Except.ok ⟨some cur⟩)
        (Except.ok air) =
        Except.ok
          { temp := if pyTruthy (seriesMean temps) then
                      some (pyRound1 (seriesMean temps)) else none
            sun := if pyTruthy (pyDivConst (seriesMean suns) 3600) then
                     some (pyRound1 (pyDivConst (seriesMean suns) 3600)) else none
            temp_now := cur.temperature_2m, hum := cur.relative_humidity_2m,
            uv := cur.uv_index, aqi := air.current.bind AirFields.european_aqi } := rfl
    rw [h1, h2] at hred
    simpa [pyTruthy, pyDivConst] using hred
  refine ⟨hg, ?_⟩
  intro stadt df prefs e
  unfold runPage
  cases h : (stadt != "") <;> simp [h, hg]

/-- C10 witness: the series -5, 5 has mean exactly 0; both the temperature
and the sunshine fields come back None and the page computes no tiers. -/
theorem c10_zero_mean_truthiness_witness :
    get_weather (Except.ok ⟨some ⟨some [-5, 5], some [-5, 5]⟩⟩)
        (Except.ok ⟨some ⟨some 21, some 55, some 3⟩⟩) (Except.ok ⟨some ⟨some 42⟩⟩) =
      Except.ok { temp := none, sun := none, temp_now := some 21, hum := some 55,
                  uv := some 3, aqi := some 42 } ∧
    (runPage "Berlin" (some ()) (Except.ok ⟨some ⟨some [-5, 5], some [-5, 5]⟩⟩)
      (Except.ok ⟨some ⟨some 21, some 55, some 3⟩⟩) (Except.ok ⟨some ⟨some 42⟩⟩)
      [cPlant] cPrefs 0).tiers = none := by
  have hz : seriesMean [(-5 : ℚ), 5] = PyFloat.num 0 := by norm_num [seriesMean]
  have H := c10_zero_mean_truthiness [-5, 5] [-5, 5] ⟨some 21, some 55, some 3⟩
    ⟨some ⟨some 42⟩⟩ hz hz
  exact ⟨H.1, H.2 "Berlin" [cPlant] cPrefs 0⟩

/-- C6 counterexample: at the spec's own matching scenario (one plant,
avg 18 °C, matching preferences) the Perfect tier holds the plant, yet its
panel is rendered with `diff_val=None`: no known diff, hence no
match-quality label at all — contradicting the claim that Perfect-tier
plants are displayed with a known diff and a threshold label. -/
theorem c6_counterexample :
    (classify [cPlant] cPrefs (.num 18) 0).perfect = [cPlant] ∧
    renderTiers (classify [cPlant] cPrefs (.num 18) 0) (.num 18) =
      [{ name := "Minze", bewertung := none, dirText := none }] := by
  have h1 : perfect [cPlant] cPrefs (.num 18) = [cPlant] := by decide
  have hnum1 : pyLe (.num cPlant.min_temp) (pyMul (.num 18) (.num (11/10))) = true := by
    norm_num [pyLe, pyMul, cPlant]
  have hnum2 : pyLe (pyMul (.num 18) (.num (9/10))) (.num cPlant.max_temp) = true := by
    norm_num [pyLe, pyMul, cPlant]
  have hsite : (pyLower cPlant.standort == pyLower cPrefs.standort ||
      pyLower cPlant.standort == "beides") = true := by decide
  have hc : candidatePred cPrefs (.num 18) cPlant = true := by
    simp [candidatePred, hnum1, hnum2, hsite]
  have hname : ((perfect [cPlant] cPrefs (.num 18)).map Plant.name).contains cPlant.name
      = true := by
    rw [h1]; decide
  have h2 : similar [cPlant] cPrefs (.num 18) = [] := by
    simp [similar, simPool, candidates, hc, hname]
  have hT : classify [cPlant] cPrefs (.num 18) 0 =
      { perfect := [cPlant], similar := [], fallback := Except.ok none } := by
    have hcond : ((perfect [cPlant] cPrefs (.num 18)).isEmpty &&
        (similar [cPlant] cPrefs (.num 18)).isEmpty) = false := by
      rw [h1]; rfl
    simp [classify, hcond, h1, h2]
  rw [show (classify [cPlant] cPrefs (.num 18) 0).perfect =
    perfect [cPlant] cPrefs (.num 18) from rfl, h1, hT]
  simp [renderTiers, zeige_pflanze, cPlant]

/-- C6 corrected: only Similar-tier rows are displayed with a known diff —
the rounded `diff` column value — and the threshold mapping (at most 2:
very similar, at most 4: acceptable, above 4: divergent) applies to exactly
the value the panel was given; Perfect-tier and fallback rows are rendered
without a diff and carry no quality label. -/
theorem c6_quality_labels (df : List Plant) (prefs : Prefs) (t : ℚ) (e : Nat) :
    (renderTiers (classify df prefs (.num t) e) (.num t) =
      (classify df prefs (.num t) e).perfect.map
        (fun row => zeige_pflanze row none (some (.num t))) ++
      (classify df prefs (.num t) e).similar.map
        (fun x => zeige_pflanze x.1 (some (pyRound1 x.2)) (some (.num t))) ++
      (match (classify df prefs (.num t) e).fallback with
       | Except.ok (some s) => s.map (fun row => zeige_pflanze row none (some (.num t)))
       | _ => [])) ∧
    (∀ (row : Plant) (kt : Option PyFloat), (zeige_pflanze row none kt).bewertung = none) ∧
    (∀ (row : Plant) (d : ℚ) (kt : Option PyFloat),
      (zeige_pflanze row (some (.num d)) kt).bewertung =
        some (if d ≤ 2 then Quality.sehrAehnlich
              else if d ≤ 4 then Quality.okay else Quality.abweichend)) ∧
    (∀ x ∈ (classify df prefs (.num t) e).similar, ∃ d : ℚ,
      x.2 = PyFloat.num d ∧ pyRound1 x.2 = PyFloat.num (round1 d)) := by
  refine ⟨rfl, fun row kt => rfl, ?_, ?_⟩
  · intro row d kt
    by_cases h2 : d ≤ 2
    · simp [zeige_pflanze, pyLe, h2]
    · by_cases h4 : d ≤ 4 <;> simp [zeige_pflanze, pyLe, h2, h4]
  · intro x hx
    have hx' : x ∈ simPool df prefs (.num t) :=
      (List.perm_insertionSort diffLeR (simPool df prefs (.num t))).subset
        (List.take_subset _ _ hx)
    have hcand : x ∈ candidates df prefs (.num t) := (List.mem_filter.mp hx').1
    rcases List.mem_map.mp hcand with ⟨p, _, rfl⟩
    exact ⟨|temp_mid p - t|, rfl, rfl⟩

/-- C7 counterexample: at the spec's scenario (the 10-25 °C plant queried at
avg 8 °C) the Similar tier is empty — the code requires
`min_temp <= avg*1.1`, and 10 <= 8.8 fails — so no panel with diff 9.5 is
shown at all; and a panel that is handed diff_val 9.5 for this plant at
8 °C reports 9.5° below the ideal range, not the 2.0° the claim states
(9.5 is not 2). -/
theorem c7_counterexample :
    similar [cPlant] cPrefs (.num 8) = [] ∧
    (zeige_pflanze cPlant (some (.num (19/2))) (some (.num 8))).dirText =
      some (DirText.unter (.num (19/2)) 10 25) ∧
    (19 : ℚ)/2 ≠ 2 := by
  have hnum : pyLe (.num cPlant.min_temp) (pyMul (.num 8) (.num (11/10))) = false := by
    norm_num [pyLe, pyMul, cPlant]
  have hc : candidatePred cPrefs (.num 8) cPlant = false := by
    simp [candidatePred, hnum]
  refine ⟨?_, ?_, by norm_num⟩
  · simp [similar, simPool, candidates, hc]
  · have hr : round1 (19/2 : ℚ) = 19/2 := by
      have h95 : ((19 : ℚ)/2) * 10 = 95 := by norm_num
      rw [round1, h95]
      rw [show ((95 : ℚ) : ℚ) = ((95 : ℤ) : ℚ) by norm_num] at *
      rw [show roundHalfEven ((95 : ℤ) : ℚ) = 95 from ?_]
      · norm_num
      · rw [roundHalfEven]
        norm_num [Int.floor_intCast]
    have hlt : pyLt (.num 8) (.num 10) = true := by
      norm_num [pyLt]
    have habs : |((19 : ℚ)/2)| = 19/2 := by
      rw [abs_of_nonneg] <;> norm_num
    simp [zeige_pflanze, cPlant, pyRound1, hr, hlt, pyAbs, habs]

/-- The rounding `round1` is the identity on integer multiples of one tenth. -/
theorem round1_tenth_int (n : ℤ) : round1 ((n : ℚ) / 10) = (n : ℚ) / 10 := by
  have h : ((n : ℚ)/10) * 10 = (n : ℚ) := by field_simp
  rw [round1, h, roundHalfEven]
  norm_num [Int.floor_intCast]

/-- C7 corrected: the deviation text does compare the average temperature
with the tolerated range, but the number it reports is the rounded
`diff_val` — the distance to the range midpoint — not the distance to the
violated bound; and at the spec's scenario temperature 8 °C the plant is
not in the Similar tier at all (see the counterexample), while at 9.5 °C it
is, with diff 8, label Abweichend, and the text 8° below the ideal range
(not 0.5°). -/
theorem c7_direction_text (row : Plant) (d kt : ℚ) :
    (kt < row.min_temp →
      (zeige_pflanze row (some (.num d)) (some (.num kt))).dirText =
        some (DirText.unter (.num |round1 d|) row.min_temp row.max_temp)) ∧
    (row.min_temp ≤ kt → row.max_temp < kt →
      (zeige_pflanze row (some (.num d)) (some (.num kt))).dirText =
        some (DirText.ueber (.num (round1 d)) row.min_temp row.max_temp)) ∧
    (row.min_temp ≤ kt → kt ≤ row.max_temp →
      (zeige_pflanze row (some (.num d)) (some (.num kt))).dirText =
        some (DirText.ideal row.min_temp row.max_temp)) ∧
    (classify [cPlant] cPrefs (.num (19/2)) 0).similar = [(cPlant, .num 8)] ∧
    renderTiers (classify [cPlant] cPrefs (.num (19/2)) 0) (.num (19/2)) =
      [{ name := "Minze", bewertung := some Quality.abweichend,
         dirText := some (DirText.unter (.num 8) 10 25) }] := by
  have hp : perfectPred cPrefs (.num (19/2)) cPlant = false := by
    have h0 : pyLe (.num cPlant.min_temp) (.num (19/2)) = false := by
      norm_num [pyLe, cPlant]
    simp [perfectPred, h0]
  have hperf : perfect [cPlant] cPrefs (.num (19/2)) = [] := by
    simp [perfect, hp]
  have hnum1 : pyLe (.num cPlant.min_temp) (pyMul (.num (19/2)) (.num (11/10))) = true := by
    norm_num [pyLe, pyMul, cPlant]
  have hnum2 : pyLe (pyMul (.num (19/2)) (.num (9/10))) (.num cPlant.max_temp) = true := by
    norm_num [pyLe, pyMul, cPlant]
  have hsite : (pyLower cPlant.standort == pyLower cPrefs.standort ||
      pyLower cPlant.standort == "beides") = true := by decide
  have hc : candidatePred cPrefs (.num (19/2)) cPlant = true := by
    simp [candidatePred, hnum1, hnum2, hsite]
  have habs : |(temp_mid cPlant - (19/2 : ℚ))| = 8 := by
    rw [abs_of_nonneg] <;> norm_num [temp_mid, cPlant]
  have hdiff : pyAbs (pySub (.num (temp_mid cPlant)) (.num (19/2))) = .num 8 := by
    simp [pyAbs, pySub, habs]
  have hsim : similar [cPlant] cPrefs (.num (19/2)) = [(cPlant, .num 8)] := by
    have hpool : simPool [cPlant] cPrefs (.num (19/2)) = [(cPlant, .num 8)] := by
      simp [simPool, candidates, hc, hdiff, hperf]
    simp [similar, hpool, List.insertionSort, List.orderedInsert]
  refine ⟨?_, ?_, ?_, hsim, ?_⟩
  · intro h
    have c1 : pyLt (.num kt) (.num row.min_temp) = true := by simp [pyLt, h]
    simp [zeige_pflanze, c1, pyRound1, pyAbs]
  · intro h1 h2
    have c1 : pyLt (.num kt) (.num row.min_temp) = false := by
      simp [pyLt, not_lt.mpr h1]
    have c2 : pyLt (.num row.max_temp) (.num kt) = true := by simp [pyLt, h2]
    simp [zeige_pflanze, c1, c2, pyRound1]
  · intro h1 h2
    have c1 : pyLt (.num kt) (.num row.min_temp) = false := by
      simp [pyLt, not_lt.mpr h1]
    have c2 : pyLt (.num row.max_temp) (.num kt) = false := by
      simp [pyLt, not_lt.mpr h2]
    simp [zeige_pflanze, c1, c2]
  · have hT : classify [cPlant] cPrefs (.num (19/2)) 0 =
        { perfect := [], similar := [(cPlant, .num 8)], fallback := Except.ok none } := by
      have hcond : ((perfect [cPlant] cPrefs (.num (19/2))).isEmpty &&
          (similar [cPlant] cPrefs (.num (19/2))).isEmpty) = false := by
        rw [hsim]; simp
      simp [classify, hcond, hperf, hsim]
    rw [hT]
    have hr8 : round1 (8 : ℚ) = 8 := by
      have h := round1_tenth_int 80
      norm_num at h
      exact h
    have habs8 : |(8 : ℚ)| = 8 := by rw [abs_of_nonneg] <;> norm_num
    have hlt : pyLt (.num (19/2)) (.num 10) = true := by norm_num [pyLt]
    have hb2 : pyLe (.num 8) (.num 2) = false := by norm_num [pyLe]
    have hb4 : pyLe (.num 8) (.num 4) = false := by norm_num [pyLe]
    simp [renderTiers, zeige_pflanze, cPlant, pyRound1, hr8, habs8, hlt, hb2, hb4, pyAbs]

/-- C7 witness: the below-range branch of the corrected deviation text,
instantiated at the scenario plant with diff 8 at 9.5 °C. -/
theorem c7_direction_text_witness :
    (zeige_pflanze cPlant (some (.num 8)) (some (.num (19/2)))).dirText =
      some (DirText.unter (.num |round1 8|) cPlant.min_temp cPlant.max_temp) :=
  (c7_direction_text cPlant 8 (19/2)).1 (by norm_num [cPlant])

/-- C8 counterexample: when the historical fetch fails or times out,
`get_weather` does not substitute a None sentinel and return the remaining
fields — the uncaught exception aborts the call and nothing at all is
returned, although the other two sources answered with full data. -/
theorem c8_counterexample :
    get_weather (Except.error ()) (Except.ok ⟨some ⟨some 21, some 55, some 3⟩⟩)
      (Except.ok ⟨some ⟨some 42⟩⟩) = Except.error PyError.requestError := rfl

/-- C8 corrected: on three successfully parsed responses the six summary
fields are filled independently — the three current fields and the AQI
each None exactly when absent from their own response, the two
historical averages None exactly when the computed value is falsy — but a
failing fetch propagates an uncaught exception (no partial summary), a
missing `current` object raises KeyError, and the filter block does run
whenever the returned average temperature is not None. -/
theorem c8_weather_fields (h : HistResp) (cur : CurrentFields) (q : AirResp)
    (a : Except Unit CurrentResp) (b : Except Unit AirResp) :
    (∃ w : Weather, get_weather (.ok h) (.ok ⟨some cur⟩) (.ok q) = Except.ok w ∧
      w.temp_now = cur.temperature_2m ∧ w.hum = cur.relative_humidity_2m ∧
      w.uv = cur.uv_index ∧ w.aqi = q.current.bind AirFields.european_aqi ∧
      (w.temp = none ↔
        pyTruthy (seriesMean ((h.daily.bind HistDaily.temperature_2m_mean).getD [])) = false) ∧
      (w.sun = none ↔
        pyTruthy (pyDivConst
          (seriesMean ((h.daily.bind HistDaily.sunshine_duration).getD [])) 3600) = false)) ∧
    get_weather (Except.error ()) a b = Except.error PyError.requestError ∧
    get_weather (.ok h) (Except.error ()) b = Except.error PyError.requestError ∧
    get_weather (.ok h) (.ok ⟨some cur⟩) (Except.error ()) = Except.error PyError.requestError ∧
    get_weather (.ok h) (.ok ⟨none⟩) (.ok q) = Except.error PyError.keyError ∧
    ∀ (stadt : String) (df : List Plant) (prefs : Prefs) (e : Nat) (w : Weather) (τ : PyFloat),
      stadt ≠ "" → get_weather (.ok h) (.ok ⟨some cur⟩) (.ok q) = Except.ok w →
      w.temp = some τ →
      (runPage stadt (some ()) (.ok h) (.ok ⟨some cur⟩) (.ok q) df prefs e).tiers =
        some (classify df prefs τ e) := by
  refine ⟨⟨_, rfl, rfl, rfl, rfl, rfl, ?_, ?_⟩, rfl, rfl, rfl, rfl, ?_⟩
  · cases hT : pyTruthy (seriesMean ((h.daily.bind HistDaily.temperature_2m_mean).getD []))
      <;> simp [hT]
  · cases hT : pyTruthy (pyDivConst
      (seriesMean ((h.daily.bind HistDaily.sunshine_duration).getD [])) 3600) <;> simp [hT]
  · intro stadt df prefs e w τ hst hw htemp
    unfold runPage
    have hb : (stadt != "") = true := bne_iff_ne.mpr hst
    simp [hb, hw, htemp]

/-- C8 witness: an empty historical payload together with an empty current
object and an empty air payload — the success path returns all six fields
(the averages as truthy NaN, the rest None), a failing historical fetch
returns nothing, and the filter runs because the average is present. -/
theorem c8_weather_fields_witness :
    get_weather (Except.ok ⟨none⟩) (Except.ok ⟨some ⟨none, none, none⟩⟩) (Except.ok ⟨none⟩) =
      Except.ok { temp := some PyFloat.nan, sun := some PyFloat.nan, temp_now := none,
                  hum := none, uv := none, aqi := none } ∧
    get_weather (Except.error ()) (Except.ok ⟨some ⟨none, none, none⟩⟩) (Except.ok ⟨none⟩) =
      Except.error PyError.requestError ∧
    (runPage "Berlin" (some ()) (Except.ok ⟨none⟩) (Except.ok ⟨some ⟨none, none, none⟩⟩)
      (Except.ok ⟨none⟩) [cPlant] cPrefs 0).tiers =
        some (classify [cPlant] cPrefs PyFloat.nan 0) := by
  have H := c8_weather_fields ⟨none⟩ ⟨none, none, none⟩ ⟨none⟩
    (Except.ok ⟨some ⟨none, none, none⟩⟩) (Except.ok ⟨none⟩)
  refine ⟨rfl, H.2.1, ?_⟩
  exact H.2.2.2.2.2 "Berlin" [cPlant] cPrefs 0 _ PyFloat.nan (by decide) rfl rfl

/-- C2 witness: at the scenario input the scenario plant is a candidate with
its midpoint diff, and the Similar tier output is the stable three-smallest
selection over the candidate set. -/
theorem c2_candidate_set_witness :
    (cPlant, PyFloat.num |(cPlant.min_temp + cPlant.max_temp) / 2 - 18|) ∈
      candidates [cPlant] cPrefs (.num 18) ∧
    (classify [cPlant] cPrefs (.num 18) 0).similar =
      (((candidates [cPlant] cPrefs (.num 18)).filter
          (fun x => !((perfect [cPlant] cPrefs (.num 18)).map Plant.name).contains
            x.1.name)).insertionSort diffLeR).take 3 := by
  have H := c2_candidate_set [cPlant] cPrefs 18
  refine ⟨(H.1 cPlant _).mpr ⟨by simp, ?_, ?_, Or.inl rfl, rfl⟩, H.2 0⟩
  · norm_num [cPlant]
  · norm_num [cPlant]

/-- C3 witness: at 9.5 °C the scenario plant sits in the Similar tier; its
name is indeed absent from the Perfect tier and the tier is within its size
bound. -/
theorem c3_similar_tier_witness :
    cPlant.name ∉ (perfect [cPlant] cPrefs (.num (19/2))).map Plant.name ∧
    (similar [cPlant] cPrefs (.num (19/2))).length ≤ 3 := by
  have hp : perfectPred cPrefs (.num (19/2)) cPlant = false := by
    have h0 : pyLe (.num cPlant.min_temp) (.num (19/2)) = false := by
      norm_num [pyLe, cPlant]
    simp [perfectPred, h0]
  have hperf : perfect [cPlant] cPrefs (.num (19/2)) = [] := by
    simp [perfect, hp]
  have hnum1 : pyLe (.num cPlant.min_temp) (pyMul (.num (19/2)) (.num (11/10))) = true := by
    norm_num [pyLe, pyMul, cPlant]
  have hnum2 : pyLe (pyMul (.num (19/2)) (.num (9/10))) (.num cPlant.max_temp) = true := by
    norm_num [pyLe, pyMul, cPlant]
  have hsite : (pyLower cPlant.standort == pyLower cPrefs.standort ||
      pyLower cPlant.standort == "beides") = true := by decide
  have hc : candidatePred cPrefs (.num (19/2)) cPlant = true := by
    simp [candidatePred, hnum1, hnum2, hsite]
  have habs : |(temp_mid cPlant - (19/2 : ℚ))| = 8 := by
    rw [abs_of_nonneg] <;> norm_num [temp_mid, cPlant]
  have hdiff : pyAbs (pySub (.num (temp_mid cPlant)) (.num (19/2))) = .num 8 := by
    simp [pyAbs, pySub, habs]
  have hsim : similar [cPlant] cPrefs (.num (19/2)) = [(cPlant, .num 8)] := by
    have hpool : simPool [cPlant] cPrefs (.num (19/2)) = [(cPlant, .num 8)] := by
      simp [simPool, candidates, hc, hdiff, hperf]
    simp [similar, hpool, List.insertionSort, List.orderedInsert]
  have H := c3_similar_tier [cPlant] cPrefs (19/2)
  exact ⟨H.1 (cPlant, .num 8) (by rw [hsim]; simp), H.2.1⟩

/-- C6 witness: a Perfect-style panel (no diff) carries no label; a panel
handed diff 8 is labelled by the thresholds (divergent). -/
theorem c6_quality_labels_witness :
    (zeige_pflanze cPlant none (some (.num 18))).bewertung = none ∧
    (zeige_pflanze cPlant (some (.num 8)) (some (.num 18))).bewertung =
      some (if (8 : ℚ) ≤ 2 then Quality.sehrAehnlich
            else if (8 : ℚ) ≤ 4 then Quality.okay else Quality.abweichend) :=
  ⟨(c6_quality_labels [cPlant] cPrefs 18 0).2.1 cPlant (some (.num 18)),
   (c6_quality_labels [cPlant] cPrefs 18 0).2.2.1 cPlant 8 (some (.num 18))⟩

end Pflanzen
